import Mathlib

set_option maxHeartbeats 1000000

/-! Verification development for the `non-bonded-periodic` repository
(`src/nbp/sysmodule.py`, `src/nbp/markov.py`).

The Python code is shallowly embedded: floats become real numbers (or, for
the purely order-and-arithmetic control logic, a linearly ordered group so
that concrete runs can be evaluated over `ℚ`), numpy arrays of positions
become lists, and fallible Python calls return `Except PyErr`. -/

/-- Python runtime errors raised by the modelled code paths: `TypeError`
for a call whose positional arguments do not bind to the parameters,
`ValueError` for the explicit raise in `Optimizer._propose`, and
`ZeroDivisionError` for float division by zero. -/
inductive PyErr where
  | typeError
  | valueError
  | zeroDivisionError
deriving DecidableEq

/-! ## System construction (sysmodule.py lines 8-10 and 38-45) -/

/-- Parameter list of `SystemInfo.__init__` (src/nbp/sysmodule.py line 38):
five required positional parameters after `self`, none with a default. -/
def systemInfoParams : List String :=
  ["characteristic_length", "sigma", "particle_charges", "system", "periods"]

/-- Positional arguments that `System.__init__` passes to `SystemInfo`
(src/nbp/sysmodule.py line 9): only four values. -/
def systemInfoCallArgs : List String :=
  ["characteristic_length", "sigma", "particle_charges", "self"]

/-- Python positional-argument binding for a call whose parameters have no
defaults: the call raises `TypeError` unless the argument count equals the
parameter count, otherwise each argument binds to one parameter. -/
def bindPositional (params args : List String) : Except PyErr (List (String × String)) :=
  if params.length = args.length then Except.ok (params.zip args)
  else Except.error PyErr.typeError

/-- Model of `System.__init__` (src/nbp/sysmodule.py lines 8-10): it first
evaluates `SystemInfo(characteristic_length, sigma, particle_charges, self)`,
whose positional arguments must bind to `SystemInfo.__init__`'s parameters,
and then initialises the private state history to the one-element list
`[SystemState(positions, self)]`.  The value returned is the content of that
history, or the Python error the construction raises. -/
def systemInitStates {V : Type} (positions : List V) : Except PyErr (List (List V)) :=
  match bindPositional systemInfoParams systemInfoCallArgs with
  | Except.error e => Except.error e
  | Except.ok _ => Except.ok [positions]

/-! ## Subset-size validation in Optimizer._propose (markov.py lines 52-57) -/

/-- The `num_particles` argument of `Optimizer._propose` as Python sees it:
a float (modelled by `ℚ`), an int (modelled by `ℤ`), or a value of any other
type. -/
inductive NumSpec where
  | fracSpec (q : ℚ)
  | countSpec (k : ℤ)
  | otherSpec
deriving DecidableEq

/-- Python's `int()` applied to a float: truncation toward zero. -/
def pyTruncInt (x : ℚ) : ℤ :=
  if 0 ≤ x then Int.floor x else -Int.floor (-x)

/-- Validation and conversion of `num_particles` in `Optimizer._propose`
(src/nbp/markov.py lines 52-57), for a system of `n` particles:

* a float `q` is accepted whenever `q <= 1` (the code checks no lower
  bound) and converted by `int(positions.shape[0] * num_particles)`;
* an int `k` is accepted whenever `k <= n`;
* anything else raises `ValueError`. -/
def proposeNumParticles (n : ℕ) : NumSpec → Except PyErr ℤ
  | NumSpec.fracSpec q =>
      if q ≤ 1 then Except.ok (pyTruncInt ((n : ℚ) * q)) else Except.error PyErr.valueError
  | NumSpec.countSpec k =>
      if k ≤ (n : ℤ) then Except.ok k else Except.error PyErr.valueError
  | NumSpec.otherSpec => Except.error PyErr.valueError

/-! ## Index selection in Simulator.act (markov.py lines 93-95) -/

/-- Size argument `int(np.ceil(0.1 * num_particles))` used by `Simulator.act`
(src/nbp/markov.py line 95). -/
def simulatorSubsetSize (n : ℕ) : ℕ :=
  Nat.ceil ((n : ℚ) / 10)

/-- Model of `np.random.choice(np.arange(n), size=size)` with the default
`replace=True`: each of the `size` entries is an independent uniform draw
over `0 .. n-1`.  The randomness is supplied as a stream `draws` of raw
numbers, reduced modulo `n`; the possible outputs of the numpy call are
exactly the outputs of this function over all streams. -/
def chooseWithReplacement (n size : ℕ) (draws : ℕ → ℕ) : List ℕ :=
  (List.range size).map (fun i => draws i % n)

/-- The particle indices `Simulator.act` perturbs (src/nbp/markov.py line 95):
`ceil(0.1·n)` draws with replacement. -/
def simulatorSelectIndices (n : ℕ) (draws : ℕ → ℕ) : List ℕ :=
  chooseWithReplacement n (simulatorSubsetSize n) draws

/-! ## Proposal generation and aliasing (markov.py lines 47-63 and 118-124)

Positions are lists over an arbitrary additive structure `V` (the code uses
numpy float 3-vectors; concrete evaluations below use `ℤ × ℤ × ℤ`).  A
proposal is described by the list of `(index, displacement)` pairs drawn
from the Gaussian, which is the only randomness involved. -/

/-- Add each displacement to the position at its index, in order; indices out
of range leave the list unchanged (numpy fancy assignment on valid indices). -/
def applyMoves {V : Type} [Add V] (positions : List V) (moves : List (ℕ × V)) : List V :=
  moves.foldl (fun ps m => ps.mapIdx (fun i p => if i = m.1 then p + m.2 else p)) positions

/-- Model of `Optimizer._propose`'s effect on the position arrays
(src/nbp/markov.py lines 59-62).  The code sets
`proposal_positions = positions` — the same array object as the current
state's — and then assigns into it, so after the call both the current
state's array and the returned proposal hold the perturbed positions.
The result is the pair (current state's array content after the call,
proposal array content); the two components are the same object in Python. -/
def optimizerPropose {V : Type} [Add V] (positions : List V) (moves : List (ℕ × V)) :
    List V × List V :=
  (applyMoves positions moves, applyMoves positions moves)

/-- Model of `Simulator._metropolis`'s effect on the position arrays
(src/nbp/markov.py lines 118-124).  The code starts from
`np.copy(...positions())`, so the current state's array is untouched and the
proposal is a fresh array.  Result: (current state's array content after the
call, proposal array content). -/
def simulatorMetropolis {V : Type} [Add V] (positions : List V) (moves : List (ℕ × V)) :
    List V × List V :=
  (positions, applyMoves positions moves)

/-! ## Greedy acceptance and Optimizer.act (markov.py lines 65-79) -/

/-- `Optimizer._check` (src/nbp/markov.py lines 65-70): accept iff
`proposal_energy <= orig_energy`. -/
def optimizerCheck {α : Type} [LinearOrder α] (origEnergy propEnergy : α) : Bool :=
  decide (propEnergy ≤ origEnergy)

/-- Model of `Optimizer.act` (src/nbp/markov.py lines 72-79), parametrised by
the energy functional `E` (the code calls `SystemState.energy()`).  The code
computes `orig_energy` from the current state, then calls `_propose` — which,
through the aliasing recorded in `optimizerPropose`, overwrites the current
state's position array — and finally returns either the proposal state with
its energy or `self._system.state()` (whose array now holds the proposal
positions) with the previously computed `orig_energy`.  The result is
((positions of the returned state, returned energy), positions held by the
current state after the call). -/
def optimizerAct {V α : Type} [Add V] [LinearOrder α] (E : List V → α)
    (positions : List V) (moves : List (ℕ × V)) : (List V × α) × List V :=
  let origEnergy := E positions
  let pr := optimizerPropose positions moves
  let propEnergy := E pr.2
  if optimizerCheck origEnergy propEnergy then ((pr.2, propEnergy), pr.1)
  else ((pr.1, origEnergy), pr.1)

/-- First-coordinate sum over a list of integer 3-vectors: a concrete
stand-in energy functional used to exercise the acceptance logic of
`optimizerAct` on explicit inputs. -/
def sumFst (l : List (ℤ × ℤ × ℤ)) : ℤ :=
  (l.map (fun p => p.1)).sum

/-! ## The optimize driver loop (markov.py lines 12-31) -/

/-- Python's `lst[-w:]` on a nonempty slice bound: for `w = 0` the slice is
the whole list, otherwise the last `min w (length)` elements. -/
def tailSlice {α : Type} (w : ℕ) (l : List α) : List α :=
  if w = 0 then l else l.drop (l.length - w)

/-- The early-exit test of `MCMC.optimize` (src/nbp/markov.py lines 24-25),
evaluated after the new energy has been appended: break iff
`len(energies) > no_progress_break` and every entry of `energies[-w:]`
differs from the just-appended energy by less than `tol` in absolute value. -/
def plateauBreak {α : Type} [LinearOrderedAddCommGroup α] (w : ℕ) (tol : α)
    (energies : List α) (newEnergy : α) : Bool :=
  decide (w < energies.length) &&
    (tailSlice w energies).all (fun e => decide (|e - newEnergy| < tol))

/-- The `for i in range(max_steps)` loop of `MCMC.optimize`
(src/nbp/markov.py lines 20-26), with the per-step result of
`optimizer.act` supplied as a stream `acts` indexed by the number of steps
already executed.  Each iteration appends the returned state to the system
history and its energy to the trace, then breaks on `plateauBreak`.
Returns (system state history, energy trace). -/
def optimizeLoop {S α : Type} [LinearOrderedAddCommGroup α] (acts : ℕ → S × α)
    (w : ℕ) (tol : α) : ℕ → List S → List α → List S × List α
  | 0, states, energies => (states, energies)
  | fuel + 1, states, energies =>
      let se := acts energies.length
      let states' := states ++ [se.1]
      let energies' := energies ++ [se.2]
      if plateauBreak w tol energies' se.2 then (states', energies')
      else optimizeLoop acts w tol fuel states' energies'

/-- Result of a full `MCMC.optimize` call: `systemStates` is the content of
the private, name-mangled attribute `_System__systemStates` that
`System.state()` and `System.states()` read; `extraStates` is the value of
the distinct attribute `_systemStates` created by the assignment
`optimized_system._systemStates = [optimized_system.state()]`
(src/nbp/markov.py line 29). -/
structure OptimizeResult (S α : Type) where
  systemStates : List S
  extraStates : Option (List S)
  energies : List α
deriving DecidableEq

/-- Model of `MCMC.optimize` (src/nbp/markov.py lines 12-31): run the loop
from the initial history, then, if `drop_intermediate_states` is set, execute
line 29.  Because the assignment targets the attribute name `_systemStates`
while the history lives under the name-mangled `_System__systemStates`, the
assignment creates a new, unread attribute and leaves the history intact. -/
def MCMCoptimize {S α : Type} [LinearOrderedAddCommGroup α] (acts : ℕ → S × α)
    (maxSteps w : ℕ) (tol : α) (dropIntermediate : Bool) (initStates : List S) :
    OptimizeResult S α :=
  let r := optimizeLoop acts w tol maxSteps initStates []
  { systemStates := r.1
    extraStates := if dropIntermediate then some r.1.getLast?.toList else none
    energies := r.2 }

/-! ## Metropolis acceptance in Simulator (markov.py lines 103-116) -/

/-- The Boltzmann constant literal `8.6173303e-5` of src/nbp/markov.py
line 109. -/
noncomputable def kB : ℝ := 86173303 / 1000000000000

/-- Acceptance probability computed by `Simulator._check`
(src/nbp/markov.py line 112): `min(1, exp(beta * (energy_prop - energy_prev)))`.
Note the argument order of the subtraction, taken verbatim from the source. -/
noncomputable def pAcc (beta energyPrev energyProp : ℝ) : ℝ :=
  min 1 (Real.exp (beta * (energyProp - energyPrev)))

/-- Acceptance probability as the specification states it:
`min(1, exp(β · (current_energy − candidate_energy)))`.  This definition
follows the spec's words and exists only to be compared with `pAcc`. -/
noncomputable def pAccClaim (beta energyPrev energyProp : ℝ) : ℝ :=
  min 1 (Real.exp (beta * (energyPrev - energyProp)))

/-- The computation `beta = 1/(8.6173303e-5 * temperature)` of
`Simulator._check` (src/nbp/markov.py line 109): Python float division
raises `ZeroDivisionError` when the denominator is zero. -/
noncomputable def simulatorBeta (T : ℝ) : Except PyErr ℝ :=
  if kB * T = 0 then Except.error PyErr.zeroDivisionError
  else Except.ok (1 / (kB * T))

/-- Model of `Simulator._check` (src/nbp/markov.py lines 103-116): compute
`beta` (which can raise), then accept iff the uniform draw `u` satisfies
`u <= p_acc`. -/
noncomputable def simulatorCheck (T energyPrev energyProp u : ℝ) : Except PyErr Bool :=
  match simulatorBeta T with
  | Except.error e => Except.error e
  | Except.ok beta => Except.ok (decide (u ≤ pAcc beta energyPrev energyProp))

/-! ## The energy sum of SystemState.energy (sysmodule.py lines 107-140) -/

/-- Particle positions are numpy rows of three floats. -/
abbrev Vec3 : Type := Fin 3 → ℝ

/-- Euclidean norm of a 3-vector, `np.linalg.norm`. -/
noncomputable def vnorm (v : Vec3) : ℝ :=
  Real.sqrt (∑ k, v k ^ 2)

/-- The complementary error function `scipy.special.erfc`. -/
noncomputable def erfcR (x : ℝ) : ℝ :=
  1 - 2 / Real.sqrt Real.pi * ∫ t in (0 : ℝ)..x, Real.exp (-t ^ 2)

/-- Component `k` of the denominator `pos[i] - pos[j] + n*L` appearing in the
short-range sum of `SystemState.energy` (src/nbp/sysmodule.py line 129).
The subtraction is the componentwise vector difference, so the division in
the source is a componentwise division by this vector. -/
noncomputable def shortsumDenom (pos : ℕ → Vec3) (n L : ℝ) (i j : ℕ) (k : Fin 3) : ℝ :=
  pos i k - pos j k + n * L

/-- Component `k` of one summand of the short-range double loop
(src/nbp/sysmodule.py line 129). -/
noncomputable def shortsumTerm (charges : ℕ → ℝ) (pos : ℕ → Vec3) (n L sigma : ℝ)
    (i j : ℕ) (k : Fin 3) : ℝ :=
  charges i * charges j / shortsumDenom pos n L i j k *
    erfcR ((vnorm (fun m => pos i m - pos j m) + n * L) / (Real.sqrt 2 * sigma))

/-- The index pairs visited by the double loop
`for i in range(len(charges)): for j in range(len(charges))`
(src/nbp/sysmodule.py lines 127-128): all ordered pairs, the diagonal
included. -/
def codePairIndices (N : ℕ) : List (ℕ × ℕ) :=
  (List.range N).flatMap (fun i => (List.range N).map (fun j => (i, j)))

/-- The accumulated `shortsum` of `SystemState.energy`
(src/nbp/sysmodule.py lines 126-129), componentwise: a 3-vector, because
each summand divides the scalar charge product by the difference vector. -/
noncomputable def shortsumCode (N : ℕ) (charges : ℕ → ℝ) (pos : ℕ → Vec3)
    (n L sigma : ℝ) : Vec3 :=
  fun k => ((codePairIndices N).map (fun p => shortsumTerm charges pos n L sigma p.1 p.2 k)).sum

/-- The return value of `SystemState.energy` (src/nbp/sysmodule.py lines
135-140): `energy_short + energy_long - energy_self` with `longsum = 0`.
Since `shortsum` is a 3-vector, the result is a 3-vector as well (numpy
broadcasts the scalar self-energy across the components). -/
noncomputable def energyCode (N : ℕ) (charges : ℕ → ℝ) (pos : ℕ → Vec3)
    (n L sigma vol eps0 : ℝ) : Vec3 :=
  fun k =>
    1 / (8 * Real.pi * eps0) * shortsumCode N charges pos n L sigma k
      + 1 / (vol * eps0) * 0
      - (2 * eps0 * sigma * (2 * Real.pi) ^ ((3 : ℝ) / 2))⁻¹ *
          (∑ i ∈ Finset.range N, charges i ^ 2)

/-- Concrete two-particle configuration used to exercise the energy sum:
particle 0 at the origin and particle 1 at `(1, 0, 0)`. -/
def posPair : ℕ → Vec3 :=
  fun i => if i = 0 then (fun _ => 0) else (fun k => if k = 0 then 1 else 0)

/-! ## Theorems -/

/-- Helper for constant-energy optimize runs: when every step reports the
same energy `c` and the tolerance is positive, the loop breaks as soon as
the trace grows past the window, i.e. after exactly `w + 1` appended
energies (provided the fuel allows that many steps).  Stated for a trace
that already holds `m ≤ w` copies of `c`. -/
theorem optimizeLoop_const_plateau {S α : Type} [LinearOrderedAddCommGroup α]
    (s : S) (c : α) (w : ℕ) (tol : α) (htol : 0 < tol) :
    ∀ (fuel m : ℕ) (states : List S), m ≤ w → w + 1 - m ≤ fuel →
      (optimizeLoop (fun _ => (s, c)) w tol fuel states (List.replicate m c)).2.length = w + 1 := by
  intro fuel
  induction fuel with
  | zero =>
      intro m states hm hf
      exact absurd hf (by omega)
  | succ n ih =>
      intro m states hm hf
      simp only [optimizeLoop]
      rw [← List.replicate_succ']
      rcases eq_or_lt_of_le hm with heq | hlt
      · subst heq
        have hbreak : plateauBreak m tol (List.replicate (m + 1) c) c = true := by
          unfold plateauBreak
          rw [Bool.and_eq_true]
          constructor
          · simp
          · rw [List.all_eq_true]
            intro x hx
            have hx' : x ∈ List.replicate (m + 1) c := by
              unfold tailSlice at hx
              by_cases hw : m = 0
              · simpa [hw] using hx
              · simp only [if_neg hw] at hx
                exact List.drop_subset _ _ hx
            have hxc : x = c := List.eq_of_mem_replicate hx'
            subst hxc
            simpa using htol
        rw [if_pos hbreak]
        simp
      · have hfalse : plateauBreak w tol (List.replicate (m + 1) c) c = false := by
          unfold plateauBreak
          have hlen : decide (w < (List.replicate (m + 1) c).length) = false := by
            simp only [List.length_replicate, decide_eq_false_iff_not]
            omega
          rw [hlen, Bool.false_and]
        rw [if_neg (by simp [hfalse])]
        exact ih (m + 1) (states ++ [s]) (by omega) (by omega)

/-- C1: the claim states the Metropolis rule
`p = min(1, exp(β · (current_energy − candidate_energy)))`, so an energy
decrease always has `p = 1`.  `Simulator._check` computes the exponent with
the opposite sign, `beta * (energy_prop - energy_prev)`: at `T = 300` the
energy decrease from 1 to 0 gets acceptance probability strictly below 1
(while the claim's formula gives 1), and the energy increase from 0 to 1 is
accepted with probability exactly 1. -/
theorem C1_metropolis_sign_reversed :
    pAccClaim (1 / (kB * 300)) 1 0 = 1 ∧
    pAcc (1 / (kB * 300)) 1 0 < 1 ∧
    pAcc (1 / (kB * 300)) 0 1 = 1 := by
  have hb : (0 : ℝ) < 1 / (kB * 300) := by norm_num [kB]
  refine ⟨?_, ?_, ?_⟩
  · unfold pAccClaim
    rw [show (1 : ℝ) - 0 = 1 by norm_num, mul_one]
    exact min_eq_left (Real.one_le_exp hb.le)
  · unfold pAcc
    rw [show (0 : ℝ) - 1 = -1 by norm_num]
    have h : Real.exp (1 / (kB * 300) * (-1)) < 1 := by
      rw [Real.exp_lt_one_iff, mul_neg_one, neg_lt_zero]
      exact hb
    exact lt_of_le_of_lt (min_le_right _ _) h
  · unfold pAcc
    rw [show (1 : ℝ) - 0 = 1 by norm_num, mul_one]
    exact min_eq_left (Real.one_le_exp hb.le)

/-- C2: constructing a System from a characteristic length, σ, a charge
vector and an initial position array is claimed to succeed with a
one-element configuration history.  In the source it never succeeds:
`System.__init__` passes four positional arguments to `SystemInfo.__init__`,
which requires five (`periods` is missing), so every construction raises
`TypeError` before the history is created. -/
theorem C2_system_construction_type_error (positions : List (ℚ × ℚ × ℚ)) :
    systemInitStates positions = Except.error PyErr.typeError := rfl

/-- C3: after `optimize` with `drop_intermediate_states` set, the claim says
the history has length 1 and the energy trace has length equal to the steps
executed.  On a concrete three-step run (window 250, so no early break) the
energy trace indeed has length 3, but the history read by `states()` keeps
all four entries: line 29 assigns the attribute `_systemStates`, which is
distinct from the name-mangled `_System__systemStates`, so the compaction is
a no-op and the discarded list lands in an unread attribute. -/
theorem C3_compaction_is_noop :
    (MCMCoptimize (fun i => (i + 1, (0 : ℚ))) 3 250 (1 / 1000000) true [0]).systemStates.length = 4 ∧
    (MCMCoptimize (fun i => (i + 1, (0 : ℚ))) 3 250 (1 / 1000000) true [0]).energies.length = 3 ∧
    (MCMCoptimize (fun i => (i + 1, (0 : ℚ))) 3 250 (1 / 1000000) true [0]).extraStates = some [3] := by
  decide

/-- C4: the claim describes the real-space term as a scalar sum over ordered
pairs with `i ≠ j`.  The double loop of `SystemState.energy` visits every
ordered pair including the diagonal, and on the diagonal the denominator
`pos[i] - pos[j] + n*L` is the zero vector whenever `n = 0`: on the concrete
two-particle configuration `posPair` the code divides by zero (and, dividing
by the difference vector componentwise, produces a 3-vector, not a float). -/
theorem C4_energy_diagonal_division_by_zero :
    codePairIndices 2 = [(0, 0), (0, 1), (1, 0), (1, 1)] ∧
    (∀ k : Fin 3, shortsumDenom posPair 0 10 0 0 k = 0) ∧
    (∀ k : Fin 3, shortsumDenom posPair 0 10 1 1 k = 0) := by
  refine ⟨by decide, ?_, ?_⟩ <;> intro k <;> simp [shortsumDenom, posPair]

/-- C5: the claim says `Optimizer.act` never increases energy because on
rejection it returns the unchanged current state.  Because `_propose` writes
through the aliased current-state array, the state returned on rejection
already holds the proposal's positions: on a concrete rejected step the
returned state's energy is 1 while the pre-step energy was 0 (only the
returned number equals the old energy). -/
theorem C5_rejected_step_energy_increases :
    sumFst ((optimizerAct sumFst [((0 : ℤ), 0, 0)] [(0, ((1 : ℤ), 0, 0))]).1.1) = 1 ∧
    sumFst [((0 : ℤ), 0, 0)] = 0 ∧
    (optimizerAct sumFst [((0 : ℤ), 0, 0)] [(0, ((1 : ℤ), 0, 0))]).1.2 = 0 ∧
    ¬ sumFst ((optimizerAct sumFst [((0 : ℤ), 0, 0)] [(0, ((1 : ℤ), 0, 0))]).1.1) ≤
        sumFst [((0 : ℤ), 0, 0)] := by
  decide

/-- C6: the claim says both proposal steps return a fresh array and leave the
current configuration's positions unchanged.  `Optimizer._propose` aliases
the current array and mutates it — after the call the current state's
positions equal the perturbed positions, not the input — while
`Simulator._metropolis` copies first and does leave the input unchanged. -/
theorem C6_propose_aliases_current_state :
    (optimizerPropose [((0 : ℤ), 0, 0)] [(0, ((1 : ℤ), 0, 0))]).1 = [((1 : ℤ), 0, 0)] ∧
    (optimizerPropose [((0 : ℤ), 0, 0)] [(0, ((1 : ℤ), 0, 0))]).1 ≠ [((0 : ℤ), 0, 0)] ∧
    (simulatorMetropolis [((0 : ℤ), 0, 0)] [(0, ((1 : ℤ), 0, 0))]).1 = [((0 : ℤ), 0, 0)] := by
  decide

/-- C7 counterexample: the claim says the loop stops once the trace has at
least `plateau_window` entries whose trailing window is flat, hence at or
before step 5 for `plateau_window = 5` at a strict local minimum.  The code
requires strictly more than `plateau_window` entries: with five identical
energies appended the break test is still false, and a constant-energy run
with window 5, tolerance `1e-6` and `max_steps = 500` executes 6 steps. -/
theorem C7_plateau_counterexample :
    plateauBreak 5 ((1 : ℚ) / 1000000) (List.replicate 5 0) 0 = false ∧
    (optimizeLoop (fun _ => ((), (0 : ℚ))) 5 (1 / 1000000) 500 [()] []).2.length = 6 := by
  constructor
  · simp [plateauBreak]
  · simpa using
      optimizeLoop_const_plateau () (0 : ℚ) 5 (1 / 1000000) (by norm_num) 500 0 [()]
        (by omega) (by omega)

/-- C7 amended: the early exit of `MCMC.optimize` fires iff the energy trace
has strictly more than `plateau_window` entries and every energy in the
trailing window of that size differs from the most recent energy by less
than the tolerance; consequently a constant-energy run (a strict local
minimum, where no move is ever accepted) with a positive tolerance
terminates exactly at step `plateau_window + 1` — for window 5, at step 6 —
regardless of `max_steps`. -/
theorem C7_plateau_strict_threshold :
    (∀ (w : ℕ) (tol : ℝ) (es : List ℝ) (e : ℝ), 0 < w →
      (plateauBreak w tol es e = true ↔
        w < es.length ∧ ∀ x ∈ es.drop (es.length - w), |x - e| < tol)) ∧
    (∀ (S : Type) (s : S) (c : ℝ) (w fuel : ℕ) (tol : ℝ), 0 < tol → w + 1 ≤ fuel →
      (optimizeLoop (fun _ => (s, c)) w tol fuel [s] []).2.length = w + 1) := by
  constructor
  · intro w tol es e hw
    simp [plateauBreak, tailSlice, hw.ne']
  · intro S s c w fuel tol htol hfuel
    simpa using optimizeLoop_const_plateau s c w tol htol fuel 0 [s] (by omega) (by omega)

/-- Witness for C7: the break characterization instantiated at window 5 on a
six-entry flat trace, and a concrete constant-energy run with window 5 and
fuel 500 stopping after 6 energies. -/
theorem C7_plateau_strict_threshold_witness :
    (plateauBreak 5 (1 : ℝ) [0, 0, 0, 0, 0, 0] (0 : ℝ) = true ↔
      5 < ([0, 0, 0, 0, 0, 0] : List ℝ).length ∧
        ∀ x ∈ ([0, 0, 0, 0, 0, 0] : List ℝ).drop (([0, 0, 0, 0, 0, 0] : List ℝ).length - 5),
          |x - (0 : ℝ)| < 1) ∧
    (optimizeLoop (fun _ => ((), (0 : ℝ))) 5 (1 : ℝ) 500 [()] []).2.length = 5 + 1 :=
  ⟨C7_plateau_strict_threshold.1 5 1 [0, 0, 0, 0, 0, 0] 0 (by norm_num),
   C7_plateau_strict_threshold.2 Unit () 0 5 500 1 (by norm_num) (by norm_num)⟩

/-- C8 amended: `Simulator.act` draws exactly `ceil(0.1·N)` indices, each a
uniform draw over `0 .. N-1`, but with replacement (`np.random.choice` is
called without `replace=False`), so the number of distinct selected indices
is at most `ceil(0.1·N)` and can be smaller.  `act(temperature)` takes no
subset argument, so the size is indeed fixed regardless of the caller. -/
theorem C8_selection_with_replacement (n : ℕ) (draws : ℕ → ℕ) (hn : 0 < n) :
    (simulatorSelectIndices n draws).length = simulatorSubsetSize n ∧
    (∀ i ∈ simulatorSelectIndices n draws, i < n) ∧
    (simulatorSelectIndices n draws).dedup.length ≤ simulatorSubsetSize n := by
  refine ⟨?_, ?_, ?_⟩
  · simp [simulatorSelectIndices, chooseWithReplacement]
  · intro i hi
    simp only [simulatorSelectIndices, chooseWithReplacement, List.mem_map] at hi
    obtain ⟨j, _, rfl⟩ := hi
    exact Nat.mod_lt _ hn
  · have h1 : (simulatorSelectIndices n draws).dedup.length ≤
        (simulatorSelectIndices n draws).length := (List.dedup_sublist _).length_le
    have h2 : (simulatorSelectIndices n draws).length = simulatorSubsetSize n := by
      simp [simulatorSelectIndices, chooseWithReplacement]
    omega

/-- Witness for C8: twenty particles, all draws hitting index 7. -/
theorem C8_selection_with_replacement_witness :
    (simulatorSelectIndices 20 (fun _ => 7)).length = simulatorSubsetSize 20 ∧
    (∀ i ∈ simulatorSelectIndices 20 (fun _ => 7), i < 20) ∧
    (simulatorSelectIndices 20 (fun _ => 7)).dedup.length ≤ simulatorSubsetSize 20 :=
  C8_selection_with_replacement 20 (fun _ => 7) (by norm_num)

/-- C9 amended: `Optimizer._propose` raises its error exactly when a float
fraction exceeds 1, an int count exceeds N, or the specification is neither
a float nor an int; every fraction in `(0, 1]` is converted to
`floor(fraction · N)` without error.  The lower bound of the claimed range
`(0, 1]` is not checked: fractions `≤ 0` also pass validation. -/
theorem C9_validation_characterization (n : ℕ) (q : ℚ) (k : ℤ) :
    (proposeNumParticles n (NumSpec.fracSpec q) = Except.error PyErr.valueError ↔ 1 < q) ∧
    (0 < q → q ≤ 1 →
      proposeNumParticles n (NumSpec.fracSpec q) = Except.ok (Int.floor ((n : ℚ) * q))) ∧
    (proposeNumParticles n (NumSpec.countSpec k) = Except.error PyErr.valueError ↔ (n : ℤ) < k) ∧
    proposeNumParticles n NumSpec.otherSpec = Except.error PyErr.valueError := by
  refine ⟨?_, ?_, ?_, rfl⟩
  · rcases le_or_lt q 1 with h | h
    · simp [proposeNumParticles, h, h.not_lt]
    · simp [proposeNumParticles, h, h.not_le]
  · intro h0 h1
    have hnn : (0 : ℚ) ≤ (n : ℚ) * q := mul_nonneg (Nat.cast_nonneg n) h0.le
    simp [proposeNumParticles, h1, pyTruncInt, hnn]
  · rcases le_or_lt k (n : ℤ) with h | h
    · simp [proposeNumParticles, h, h.not_lt]
    · simp [proposeNumParticles, h, h.not_le]

/-- Witness for C9: ten particles and the fraction one half convert to five
without error. -/
theorem C9_validation_characterization_witness :
    proposeNumParticles 10 (NumSpec.fracSpec (1 / 2)) = Except.ok (Int.floor ((10 : ℚ) * (1 / 2))) :=
  (C9_validation_characterization 10 (1 / 2) 20).2.1 (by norm_num) (by norm_num)

/-- C10: `Simulator._check` computes `beta = 1/(8.6173303e-5 * temperature)`
with no guard, so the check is well-defined exactly for nonzero temperature,
and at `temperature = 0` the call raises `ZeroDivisionError` instead of
degenerating to the greedy criterion. -/
theorem C10_zero_temperature_division :
    (∀ energyPrev energyProp u : ℝ,
      simulatorCheck 0 energyPrev energyProp u = Except.error PyErr.zeroDivisionError) ∧
    (∀ T : ℝ, T ≠ 0 → simulatorBeta T = Except.ok (1 / (kB * T))) := by
  have hkB : kB ≠ 0 := by norm_num [kB]
  constructor
  · intro energyPrev energyProp u
    simp [simulatorCheck, simulatorBeta]
  · intro T hT
    simp [simulatorBeta, mul_ne_zero hkB hT]

/-- Witness for C10: at zero temperature the check raises; at 300 K the
inverse-temperature computation succeeds. -/
theorem C10_zero_temperature_division_witness :
    simulatorCheck 0 1 0 (1 / 2) = Except.error PyErr.zeroDivisionError ∧
    simulatorBeta 300 = Except.ok (1 / (kB * 300)) :=
  ⟨C10_zero_temperature_division.1 1 0 (1 / 2),
   C10_zero_temperature_division.2 300 (by norm_num)⟩

/-- C8 counterexample: the claim says the perturbed index set has exactly
`ceil(0.1·N)` distinct elements, sampled without replacement.
`np.random.choice` is called without `replace=False`, so duplicate draws are
possible: with `N = 20` (subset size 2) the draw stream returning 3 twice
yields the index list `[3, 3]`, which has a single distinct element. -/
theorem C8_selection_duplicate_counterexample :
    simulatorSubsetSize 20 = 2 ∧
    simulatorSelectIndices 20 (fun _ => 3) = [3, 3] ∧
    (simulatorSelectIndices 20 (fun _ => 3)).dedup.length = 1 := by
  have h : simulatorSubsetSize 20 = 2 := by norm_num [simulatorSubsetSize]
  have h2 : simulatorSelectIndices 20 (fun _ => 3) = [3, 3] := by
    simp only [simulatorSelectIndices, h]
    decide
  exact ⟨h, h2, by rw [h2]; decide⟩

/-- C9 counterexample: the claim says `InvalidParameterError` is raised for
every subset specification outside the valid bounds, a fraction having to
lie in `(0, 1]`.  The code checks no lower bound on a float: the fractions
`0` and `-1/2` are outside `(0, 1]`, yet validation passes and converts
them to the counts `0` and `-2` without raising. -/
theorem C9_fraction_zero_counterexample :
    proposeNumParticles 4 (NumSpec.fracSpec 0) = Except.ok 0 ∧
    proposeNumParticles 4 (NumSpec.fracSpec (-(1 / 2))) = Except.ok (-2) ∧
    ¬ (0 < (0 : ℚ)) := by
  refine ⟨?_, ?_, by norm_num⟩
  · norm_num [proposeNumParticles, pyTruncInt]
  · norm_num [proposeNumParticles, pyTruncInt]
